import Mathlib

/-!
# Verification of the `jose` OAuth/PKCE credential core (`src/main.py`)

This file is a shallow embedding, in Lean 4, of the authentication core of
`src/main.py`: the PKCE generator, JWT claim extraction, the credential
store, the token refresher, the token validity gate, the OAuth callback
handler and the final persistence step of `do_login`.

Modelling conventions:

* Python/JSON values are modelled by the inductive type `Json`; a Python
  value that may be `None` is `PyVal := Option Json` (`none` is Python's
  `None`; a JSON `null` read out of a dict collapses to `none`, exactly as
  `json.loads` maps `null` to Python `None`).  JSON numbers are modelled
  as exact rationals (`Rat`).
* Code that can raise an uncaught Python exception is modelled in
  `Except String α`; code whose exceptions are all caught returns
  `Option α`.
* The file system holds at most the single credential file; its state is
  `FileState` (absent, unparseable, or a parsed JSON document).  The
  stdlib pair `json.dump`/`json.load` is modelled at the level of JSON
  documents (a faithful model of a correct JSON serializer), so a stored
  file is either garbage (`corrupt`) or a `Json` document.
* Network I/O (`requests.post`, `urllib.request.urlopen`) is modelled by
  passing the server's response (or the raised exception) as an explicit
  oracle argument.
* `base64.urlsafe_b64decode` is modelled as CPython executes it: the
  `-`/`_` translation followed by `binascii.a2b_base64` in its default
  non-strict mode (`a2bBase64`), which silently discards characters
  outside the standard alphabet, accepts `+`/`/` alongside `-`/`_`, ends
  decoding at a completed padding sequence, and raises only when the
  input ends in the middle of a quad.
* `bytes.decode()` (strict UTF-8) and `json.loads` are implemented from
  scratch (`utf8Decode`, `Json.parse`), as is SHA-256 (`sha256`).
  `json.loads`'s nonstandard `NaN`/`Infinity`/`-Infinity` literals are
  included (`Json.nan`, `Json.inf`).
-/

/-- A JSON value as produced by `json.loads` / consumed by `json.dump`.
Numbers are exact rationals (JSON numbers are decimal literals);
CPython's nonstandard float literals `NaN`, `Infinity` and `-Infinity`,
which `json.loads` accepts by default, get dedicated constructors
(`inf true` is `-Infinity`). -/
inductive Json where
  | null
  | bool (b : Bool)
  | num (q : Rat)
  | nan
  | inf (neg : Bool)
  | str (s : String)
  | arr (xs : List Json)
  | obj (kvs : List (String × Json))

/-- Python truthiness of a JSON-representable value (`if x:`);
`bool(float("nan"))` and `bool(float("inf"))` are both `True`. -/
def Json.truthy : Json → Bool
  | .null => false
  | .bool b => b
  | .num q => q != 0
  | .nan => true
  | .inf _ => true
  | .str s => s != ""
  | .arr xs => !xs.isEmpty
  | .obj kvs => !kvs.isEmpty

/-- A Python value that may be `None` (`none` stands for Python `None`). -/
abbrev PyVal := Option Json

/-- Truthiness of a possibly-`None` Python value. -/
def truthyPy : PyVal → Bool
  | none => false
  | some j => j.truthy

/-- Python `None` is represented as JSON `null` when placed back inside a
JSON document (as `json.dump` serializes `None`). -/
def pyToJson : PyVal → Json
  | none => .null
  | some j => j

/-- Key lookup in a JSON object; with duplicate keys the last binding wins,
as in a Python dict built by `json.loads`. -/
def jlookup (kvs : List (String × Json)) (k : String) : Option Json :=
  (kvs.reverse.find? (fun p => p.1 = k)).map (·.2)

/-- A JSON `null` stored under a key reads back as Python `None`. -/
def denull : Option Json → PyVal
  | some .null => none
  | some j => some j
  | none => none

/-- Python `d.get(k)`: `AttributeError` unless `d` is a dict; a missing key
or a `null` value both yield Python `None`. -/
def pyGet (v : PyVal) (k : String) : Except String PyVal :=
  match v with
  | some (.obj kvs) => .ok (denull (jlookup kvs k))
  | _ => .error "AttributeError"

/-- Python `d.get(k, default)`: the default is used only when the key is
missing (a key mapped to `null` yields Python `None`, not the default). -/
def pyGetD (v : PyVal) (k : String) (dflt : PyVal) : Except String PyVal :=
  match v with
  | some (.obj kvs) =>
    .ok (match jlookup kvs k with
         | none => dflt
         | some x => denull (some x))
  | _ => .error "AttributeError"

/-- Python `d[k] = x` on a dict: replaces an existing binding in place or
appends a new one; `TypeError` on a non-dict. -/
def insertKV (kvs : List (String × Json)) (k : String) (x : Json) :
    List (String × Json) :=
  if kvs.any (fun p => p.1 = k) then
    kvs.map (fun p => if p.1 = k then (k, x) else p)
  else
    kvs ++ [(k, x)]

/-- Python item assignment `v[k] = x` (raises unless `v` is a dict). -/
def pySetItem (v : Json) (k : String) (x : Json) : Except String Json :=
  match v with
  | .obj kvs => .ok (.obj (insertKV kvs k x))
  | _ => .error "TypeError"

/-! ## Splitting on dots (Python `str.split(".")` / `str.count(".")`) -/

/-- Python `s.split(".")` on the character list of a string: always returns
at least one (possibly empty) segment. -/
def splitOnDot : List Char → List (List Char)
  | [] => [[]]
  | c :: rest =>
    let r := splitOnDot rest
    if c = '.' then [] :: r
    else
      match r with
      | s :: ss => (c :: s) :: ss
      | [] => [[c]]

theorem splitOnDot_ne_nil (cs : List Char) : splitOnDot cs ≠ [] := by
  induction cs with
  | nil => simp [splitOnDot]
  | cons c rest ih =>
    simp only [splitOnDot]
    split
    · simp
    · match h : splitOnDot rest with
      | [] => exact absurd h ih
      | s :: ss => simp

/-- The number of segments is one more than the number of dots
(Python: `len(s.split(".")) == s.count(".") + 1`). -/
theorem splitOnDot_length (cs : List Char) :
    (splitOnDot cs).length = cs.count '.' + 1 := by
  induction cs with
  | nil => simp [splitOnDot]
  | cons c rest ih =>
    simp only [splitOnDot, List.count_cons]
    by_cases hc : c = '.'
    · simp [hc, ih]
    · have hne := splitOnDot_ne_nil rest
      match h : splitOnDot rest with
      | [] => exact absurd h hne
      | s :: ss =>
        rw [h] at ih
        simp only [List.length_cons] at ih
        simp [hc, Ne.symm hc, ih, beq_iff_eq]

/-! ## Base64url (models `base64.urlsafe_b64encode/b64decode`) -/

/-- The alphabet `urlsafe_b64decode` effectively accepts: it first
translates `-`/`_` to `+`/`/` and then decodes against the standard
alphabet, so both character pairs are live for value 62 and 63. -/
def b64Char? (c : Char) : Option Nat :=
  if 'A' ≤ c ∧ c ≤ 'Z' then some (c.toNat - 'A'.toNat)
  else if 'a' ≤ c ∧ c ≤ 'z' then some (c.toNat - 'a'.toNat + 26)
  else if '0' ≤ c ∧ c ≤ '9' then some (c.toNat - '0'.toNat + 52)
  else if c = '-' ∨ c = '+' then some 62
  else if c = '_' ∨ c = '/' then some 63
  else none

/-- The base64url alphabet, index to character. -/
def b64CharOf (n : Nat) : Char :=
  if n < 26 then Char.ofNat ('A'.toNat + n)
  else if n < 52 then Char.ofNat ('a'.toNat + (n - 26))
  else if n < 62 then Char.ofNat ('0'.toNat + (n - 52))
  else if n = 62 then '-'
  else '_'

/-- CPython `binascii.a2b_base64` in its default non-strict mode (as
`base64.b64decode` invokes it): characters outside the alphabet are
silently discarded; `=` is ignored before two data characters of the
current quad and otherwise counts as padding, and as soon as data plus
padding complete a quad, decoding stops and returns the bytes
accumulated so far; input that ends in the middle of a quad raises
(here: `none`).  State: `quad` is the position inside the current
four-character group, `left` the pending bits, `pads` the padding
characters seen since the last data character. -/
def a2bBase64 : List Char → Nat → Nat → Nat → Option (List Nat)
  | [], 0, _, _ => some []
  | [], _ + 1, _, _ => none
  | c :: rest, quad, left, pads =>
    if c = '=' then
      if 2 ≤ quad then
        if 4 ≤ quad + pads + 1 then some []
        else a2bBase64 rest quad left (pads + 1)
      else a2bBase64 rest quad left pads
    else
      match b64Char? c with
      | none => a2bBase64 rest quad left pads
      | some v =>
        match quad with
        | 0 => a2bBase64 rest 1 v 0
        | 1 => (a2bBase64 rest 2 (v % 16) 0).map
            (fun bs => (left * 4 + v / 16) :: bs)
        | 2 => (a2bBase64 rest 3 (v % 4) 0).map
            (fun bs => (left * 16 + v / 4) :: bs)
        | _ => (a2bBase64 rest 0 0 0).map
            (fun bs => (left * 64 + v) :: bs)

/-- `base64.urlsafe_b64decode` on the already-padded payload: the
`-`/`_` translation is folded into `b64Char?`, the rest is non-strict
`a2b_base64` from a fresh state. -/
def b64urlDecode (cs : List Char) : Option (List Nat) :=
  a2bBase64 cs 0 0 0

/-- `base64.urlsafe_b64encode`: bytes to characters, with `=` padding. -/
def b64urlEncode : List Nat → List Char
  | [] => []
  | [a] =>
    [b64CharOf (a / 4), b64CharOf (a % 4 * 16), '=', '=']
  | [a, b] =>
    [b64CharOf (a / 4), b64CharOf (a % 4 * 16 + b / 16),
     b64CharOf (b % 16 * 4), '=']
  | a :: b :: c :: rest =>
    b64CharOf (a / 4) :: b64CharOf (a % 4 * 16 + b / 16) ::
    b64CharOf (b % 16 * 4 + c / 64) :: b64CharOf (c % 64) ::
    b64urlEncode rest

/-! ## UTF-8 (models `str.encode()` / `bytes.decode()`) -/

/-- UTF-8 encoding of a single Unicode scalar value. -/
def utf8EncodeChar (c : Char) : List Nat :=
  let n := c.toNat
  if n < 0x80 then [n]
  else if n < 0x800 then [0xC0 + n / 64, 0x80 + n % 64]
  else if n < 0x10000 then
    [0xE0 + n / 4096, 0x80 + n / 64 % 64, 0x80 + n % 64]
  else
    [0xF0 + n / 262144, 0x80 + n / 4096 % 64, 0x80 + n / 64 % 64,
     0x80 + n % 64]

/-- `str.encode()`: UTF-8 bytes of a string. -/
def utf8Encode (s : String) : List Nat :=
  s.data.flatMap utf8EncodeChar

/-- Strict UTF-8 decoding (`bytes.decode()`): rejects truncated sequences,
bad continuation bytes, overlong forms, surrogates and values above
`0x10FFFF`, raising (here: `none`) exactly when CPython would raise
`UnicodeDecodeError`. -/
def utf8Decode : List Nat → Option (List Char)
  | [] => some []
  | b :: rest =>
    if b < 0x80 then do
      let cs ← utf8Decode rest
      pure (Char.ofNat b :: cs)
    else if b < 0xC2 then none
    else if b < 0xE0 then
      match rest with
      | b1 :: rest' =>
        if 0x80 ≤ b1 ∧ b1 < 0xC0 then do
          let cs ← utf8Decode rest'
          pure (Char.ofNat ((b - 0xC0) * 64 + (b1 - 0x80)) :: cs)
        else none
      | _ => none
    else if b < 0xF0 then
      match rest with
      | b1 :: b2 :: rest' =>
        let n := (b - 0xE0) * 4096 + (b1 - 0x80) * 64 + (b2 - 0x80)
        if 0x80 ≤ b1 ∧ b1 < 0xC0 ∧ 0x80 ≤ b2 ∧ b2 < 0xC0 ∧
            0x800 ≤ n ∧ ¬(0xD800 ≤ n ∧ n ≤ 0xDFFF) then do
          let cs ← utf8Decode rest'
          pure (Char.ofNat n :: cs)
        else none
      | _ => none
    else if b < 0xF5 then
      match rest with
      | b1 :: b2 :: b3 :: rest' =>
        let n := (b - 0xF0) * 262144 + (b1 - 0x80) * 4096 +
                 (b2 - 0x80) * 64 + (b3 - 0x80)
        if 0x80 ≤ b1 ∧ b1 < 0xC0 ∧ 0x80 ≤ b2 ∧ b2 < 0xC0 ∧
            0x80 ≤ b3 ∧ b3 < 0xC0 ∧ 0x10000 ≤ n ∧ n ≤ 0x10FFFF then do
          let cs ← utf8Decode rest'
          pure (Char.ofNat n :: cs)
        else none
      | _ => none
    else none

/-! ## JSON parsing (models `json.loads`)

The parser implements JSON as `json.loads` accepts it by default:
arbitrary top-level values, strict strings (control characters must be
escaped, `\uXXXX` escapes with surrogate-pair combination), numbers
without leading zeros, `,`/`:` structure with the four whitespace
characters, plus CPython's non-standard literals `NaN`, `Infinity` and
`-Infinity`.  A lone-surrogate `\uXXXX` escape, which CPython keeps in
the resulting `str`, cannot be carried by Lean's `Char`; the model
parses it successfully (exactly where CPython does) but substitutes
U+FFFD for the surrogate, so acceptance is exact and only that exotic
character value is approximated.  Recursion is by explicit fuel;
`Json.parse` supplies fuel ample for any input it is given. -/

/-- The four JSON whitespace characters. -/
def isJsonWs (c : Char) : Bool :=
  c == ' ' || c == '\t' || c == '\n' || c == '\r'

def skipWs (cs : List Char) : List Char := cs.dropWhile isJsonWs

def hexVal? (c : Char) : Option Nat :=
  if '0' ≤ c ∧ c ≤ '9' then some (c.toNat - '0'.toNat)
  else if 'a' ≤ c ∧ c ≤ 'f' then some (c.toNat - 'a'.toNat + 10)
  else if 'A' ≤ c ∧ c ≤ 'F' then some (c.toNat - 'A'.toNat + 10)
  else none

/-- Body of a JSON string, after the opening quote; returns the decoded
characters and the remaining input. -/
def parseStringBody : Nat → List Char → Option (List Char × List Char)
  | 0, _ => none
  | _ + 1, [] => none
  | fuel + 1, c :: rest =>
    if c = '"' then some ([], rest)
    else if c = '\\' then
      match rest with
      | [] => none
      | e :: rest1 =>
        if e = '"' ∨ e = '\\' ∨ e = '/' then do
          let (s, r) ← parseStringBody fuel rest1
          pure (e :: s, r)
        else if e = 'b' then do
          let (s, r) ← parseStringBody fuel rest1
          pure (Char.ofNat 8 :: s, r)
        else if e = 'f' then do
          let (s, r) ← parseStringBody fuel rest1
          pure (Char.ofNat 12 :: s, r)
        else if e = 'n' then do
          let (s, r) ← parseStringBody fuel rest1
          pure ('\n' :: s, r)
        else if e = 'r' then do
          let (s, r) ← parseStringBody fuel rest1
          pure ('\r' :: s, r)
        else if e = 't' then do
          let (s, r) ← parseStringBody fuel rest1
          pure ('\t' :: s, r)
        else if e = 'u' then
          match rest1 with
          | h1 :: h2 :: h3 :: h4 :: rest2 => do
            let v1 ← hexVal? h1
            let v2 ← hexVal? h2
            let v3 ← hexVal? h3
            let v4 ← hexVal? h4
            let n := v1 * 4096 + v2 * 256 + v3 * 16 + v4
            if 0xD800 ≤ n ∧ n ≤ 0xDBFF then
              -- high surrogate: combined with an immediately following
              -- low-surrogate escape (CPython behaviour); otherwise
              -- CPython keeps the lone surrogate in the str, which
              -- Lean's `Char` cannot carry: the model emits U+FFFD and
              -- resumes right after the high escape, so parsing
              -- succeeds and fails exactly where CPython's does
              match rest2 with
              | '\\' :: 'u' :: g1 :: g2 :: g3 :: g4 :: rest3 =>
                (match hexVal? g1, hexVal? g2, hexVal? g3, hexVal? g4 with
                 | some w1, some w2, some w3, some w4 =>
                   let m := w1 * 4096 + w2 * 256 + w3 * 16 + w4
                   if 0xDC00 ≤ m ∧ m ≤ 0xDFFF then do
                     let (s, r) ← parseStringBody fuel rest3
                     pure (Char.ofNat (0x10000 + (n - 0xD800) * 1024 +
                           (m - 0xDC00)) :: s, r)
                   else do
                     let (s, r) ← parseStringBody fuel rest2
                     pure (Char.ofNat 0xFFFD :: s, r)
                 | _, _, _, _ => do
                   let (s, r) ← parseStringBody fuel rest2
                   pure (Char.ofNat 0xFFFD :: s, r))
              | _ => do
                let (s, r) ← parseStringBody fuel rest2
                pure (Char.ofNat 0xFFFD :: s, r)
            else if 0xDC00 ≤ n ∧ n ≤ 0xDFFF then do
              let (s, r) ← parseStringBody fuel rest2
              pure (Char.ofNat 0xFFFD :: s, r)
            else do
              let (s, r) ← parseStringBody fuel rest2
              pure (Char.ofNat n :: s, r)
          | _ => none
        else none
    else if c.toNat < 0x20 then none
    else do
      let (s, r) ← parseStringBody fuel rest
      pure (c :: s, r)

def digitsVal (cs : List Char) : Nat :=
  cs.foldl (fun a c => a * 10 + (c.toNat - '0'.toNat)) 0

/-- A JSON number: `-?(0|[1-9][0-9]*)(\.[0-9]+)?([eE][+-]?[0-9]+)?`,
evaluated exactly as a rational. -/
def parseNumber (cs : List Char) : Option (Rat × List Char) :=
  let (neg, cs1) :=
    match cs with
    | '-' :: rest => (true, rest)
    | _ => (false, cs)
  match cs1 with
  | [] => none
  | c :: _ =>
    if !c.isDigit then none
    else
      let (intDigits, cs2) :=
        if c = '0' then ([c], cs1.tail)
        else (cs1.takeWhile Char.isDigit, cs1.dropWhile Char.isDigit)
      let (fracVal, fracLen, cs3) :=
        match cs2 with
        | '.' :: d :: rest =>
          if d.isDigit then
            ((digitsVal ((d :: rest).takeWhile Char.isDigit) : Nat),
             ((d :: rest).takeWhile Char.isDigit).length,
             (d :: rest).dropWhile Char.isDigit)
          else (0, 0, cs2)
        | _ => (0, 0, cs2)
      let (expVal, cs4) : Int × List Char :=
        match cs3 with
        | e :: '+' :: d :: rest =>
          if (e = 'e' ∨ e = 'E') ∧ d.isDigit then
            ((digitsVal ((d :: rest).takeWhile Char.isDigit) : Int),
             (d :: rest).dropWhile Char.isDigit)
          else (0, cs3)
        | e :: '-' :: d :: rest =>
          if (e = 'e' ∨ e = 'E') ∧ d.isDigit then
            (-(digitsVal ((d :: rest).takeWhile Char.isDigit) : Int),
             (d :: rest).dropWhile Char.isDigit)
          else (0, cs3)
        | e :: d :: rest =>
          if (e = 'e' ∨ e = 'E') ∧ d.isDigit then
            ((digitsVal ((d :: rest).takeWhile Char.isDigit) : Int),
             (d :: rest).dropWhile Char.isDigit)
          else (0, cs3)
        | _ => (0, cs3)
      let mag : Rat :=
        (digitsVal intDigits : Rat) + (fracVal : Rat) / ((10 : Rat) ^ fracLen)
      let mag : Rat :=
        if 0 ≤ expVal then mag * (10 : Rat) ^ expVal.toNat
        else mag / ((10 : Rat) ^ (-expVal).toNat)
      some (if neg then -mag else mag, cs4)

/-- Python dict construction from an ordered member list: the first
occurrence of a key fixes its position, the last fixes its value. -/
def dedupKV (ms : List (String × Json)) : List (String × Json) :=
  ms.foldl (fun acc m => insertKV acc m.1 m.2) []

mutual

/-- One JSON value (leading whitespace allowed), returning the remaining
input. -/
def parseVal : Nat → List Char → Option (Json × List Char)
  | 0, _ => none
  | fuel + 1, cs =>
    match skipWs cs with
    | [] => none
    | '"' :: rest => do
      let (s, r) ← parseStringBody (fuel + 1) rest
      pure (.str (String.mk s), r)
    | 'n' :: 'u' :: 'l' :: 'l' :: rest => some (.null, rest)
    | 't' :: 'r' :: 'u' :: 'e' :: rest => some (.bool true, rest)
    | 'f' :: 'a' :: 'l' :: 's' :: 'e' :: rest => some (.bool false, rest)
    | 'N' :: 'a' :: 'N' :: rest => some (.nan, rest)
    | 'I' :: 'n' :: 'f' :: 'i' :: 'n' :: 'i' :: 't' :: 'y' :: rest =>
      some (.inf false, rest)
    | '-' :: 'I' :: 'n' :: 'f' :: 'i' :: 'n' :: 'i' :: 't' :: 'y' :: rest =>
      some (.inf true, rest)
    | '[' :: rest =>
      (match skipWs rest with
       | ']' :: r => some (.arr [], r)
       | _ => do
         let (xs, r) ← parseElems fuel rest
         pure (.arr xs, r))
    | '{' :: rest =>
      (match skipWs rest with
       | '}' :: r => some (.obj [], r)
       | _ => do
         let (kvs, r) ← parseMembers fuel rest
         pure (.obj (dedupKV kvs), r))
    | other => do
      let (q, r) ← parseNumber other
      pure (.num q, r)

/-- Comma-separated array elements, up to and including the closing `]`. -/
def parseElems : Nat → List Char → Option (List Json × List Char)
  | 0, _ => none
  | fuel + 1, cs => do
    let (x, r) ← parseVal fuel cs
    match skipWs r with
    | ',' :: r2 => do
      let (xs, r3) ← parseElems fuel r2
      pure (x :: xs, r3)
    | ']' :: r2 => pure ([x], r2)
    | _ => none

/-- Comma-separated object members, up to and including the closing
brace. -/
def parseMembers : Nat → List Char → Option (List (String × Json) × List Char)
  | 0, _ => none
  | fuel + 1, cs =>
    match skipWs cs with
    | '"' :: rest => do
      let (k, r) ← parseStringBody (fuel + 1) rest
      match skipWs r with
      | ':' :: r2 => do
        let (v, r3) ← parseVal fuel r2
        match skipWs r3 with
        | ',' :: r4 => do
          let (kvs, r5) ← parseMembers fuel r4
          pure ((String.mk k, v) :: kvs, r5)
        | '}' :: r4 => pure ([(String.mk k, v)], r4)
        | _ => none
      | _ => none
    | _ => none

end

/-- `json.loads`: parse one JSON document, requiring only whitespace after
it. -/
def Json.parse (cs : List Char) : Option Json :=
  match parseVal (cs.length * 2 + 4) cs with
  | some (j, rest) => if skipWs rest = [] then some j else none
  | none => none

/-! ## JWT claim extraction (`parse_jwt_claims`, src/main.py lines 59-68) -/

/-- The function `parse_jwt_claims(token)`:

```python
if not token or token.count(".") != 2:
    return None
try:
    _, payload, _ = token.split(".")
    padded = payload + "=" * (-len(payload) % 4)
    data = base64.urlsafe_b64decode(padded.encode())
    return json.loads(data.decode())
except Exception:
    return None
```

Every exception inside the `try` is caught, so the Python function is
total over strings and the model returns an `Option`.  Note Python's
`-len(payload) % 4` equals `(4 - len % 4) % 4`. -/
def parse_jwt_claims (token : String) : Option Json :=
  if token = "" ∨ token.data.count '.' ≠ 2 then none
  else
    match splitOnDot token.data with
    | [_, payload, _] =>
      let padded := payload ++ List.replicate ((4 - payload.length % 4) % 4) '='
      match b64urlDecode padded with
      | none => none
      | some bytes =>
        match utf8Decode bytes with
        | none => none
        | some cs => Json.parse cs
    | _ => none

/-! ## SHA-256 (models `hashlib.sha256(...).digest()`)

Implemented from FIPS 180-4 over byte lists, with 32-bit words as natural
numbers reduced modulo `2^32`. -/

def w32mod : Nat := 4294967296

def add32 (a b : Nat) : Nat := (a + b) % w32mod

/-- Rotate a 32-bit word right by `k` positions, arithmetically:
low `k` bits wrap around to the top. -/
def rotr32 (k n : Nat) : Nat := n / 2 ^ k + n % 2 ^ k * 2 ^ (32 - k)

def shr32 (k n : Nat) : Nat := n / 2 ^ k

def bigSigma0 (x : Nat) : Nat :=
  Nat.xor (rotr32 2 x) (Nat.xor (rotr32 13 x) (rotr32 22 x))

def bigSigma1 (x : Nat) : Nat :=
  Nat.xor (rotr32 6 x) (Nat.xor (rotr32 11 x) (rotr32 25 x))

def smallSigma0 (x : Nat) : Nat :=
  Nat.xor (rotr32 7 x) (Nat.xor (rotr32 18 x) (shr32 3 x))

def smallSigma1 (x : Nat) : Nat :=
  Nat.xor (rotr32 17 x) (Nat.xor (rotr32 19 x) (shr32 10 x))

def chFn (x y z : Nat) : Nat :=
  Nat.xor (Nat.land x y) (Nat.land (4294967295 - x) z)

def majFn (x y z : Nat) : Nat :=
  Nat.xor (Nat.land x y) (Nat.xor (Nat.land x z) (Nat.land y z))

/-- The 64 SHA-256 round constants of FIPS 180-4 (written in decimal). -/
def sha256K : List Nat :=
  [1116352408, 1899447441, 3049323471, 3921009573, 961987163,
   1508970993, 2453635748, 2870763221, 3624381080, 310598401,
   607225278, 1426881987, 1925078388, 2162078206, 2614888103,
   3248222580, 3835390401, 4022224774, 264347078, 604807628,
   770255983, 1249150122, 1555081692, 1996064986, 2554220882,
   2821834349, 2952996808, 3210313671, 3336571891, 3584528711,
   113926993, 338241895, 666307205, 773529912, 1294757372,
   1396182291, 1695183700, 1986661051, 2177026350, 2456956037,
   2730485921, 2820302411, 3259730800, 3345764771, 3516065817,
   3600352804, 4094571909, 275423344, 430227734, 506948616,
   659060556, 883997877, 958139571, 1322822218, 1537002063,
   1747873779, 1955562222, 2024104815, 2227730452, 2361852424,
   2428436474, 2756734187, 3204031479, 3329325298]

/-- The SHA-256 initial hash value of FIPS 180-4 (written in decimal). -/
def sha256H0 : List Nat :=
  [1779033703, 3144134277, 1013904242, 2773480762,
   1359893119, 2600822924, 528734635, 1541459225]

/-- Extend a 16-word block to the full 64-word message schedule. -/
def sha256Extend : Nat → List Nat → List Nat
  | 0, acc => acc
  | n + 1, acc =>
    let t := acc.length
    let w := add32
      (add32 (smallSigma1 (acc.getD (t - 2) 0)) (acc.getD (t - 7) 0))
      (add32 (smallSigma0 (acc.getD (t - 15) 0)) (acc.getD (t - 16) 0))
    sha256Extend n (acc ++ [w])

/-- One round of the SHA-256 compression function. -/
def sha256Round (st : Nat × Nat × Nat × Nat × Nat × Nat × Nat × Nat)
    (kw : Nat × Nat) : Nat × Nat × Nat × Nat × Nat × Nat × Nat × Nat :=
  let (a, b, c, d, e, f, g, h) := st
  let t1 := add32 h (add32 (bigSigma1 e)
    (add32 (chFn e f g) (add32 kw.1 kw.2)))
  let t2 := add32 (bigSigma0 a) (majFn a b c)
  (add32 t1 t2, a, b, c, add32 d t1, e, f, g)

/-- Compress one 512-bit block into the running hash. -/
def sha256Compress (hs : List Nat) (block : List Nat) : List Nat :=
  let ws := sha256Extend 48 block
  let init := (hs.getD 0 0, hs.getD 1 0, hs.getD 2 0, hs.getD 3 0,
               hs.getD 4 0, hs.getD 5 0, hs.getD 6 0, hs.getD 7 0)
  let (a, b, c, d, e, f, g, h) := (sha256K.zip ws).foldl sha256Round init
  [add32 (hs.getD 0 0) a, add32 (hs.getD 1 0) b, add32 (hs.getD 2 0) c,
   add32 (hs.getD 3 0) d, add32 (hs.getD 4 0) e, add32 (hs.getD 5 0) f,
   add32 (hs.getD 6 0) g, add32 (hs.getD 7 0) h]

/-- Big-endian bytes of a number, fixed width. -/
def toBytesBE : Nat → Nat → List Nat
  | 0, _ => []
  | k + 1, n => n / 256 ^ k % 256 :: toBytesBE k n

/-- Group bytes into 32-bit big-endian words. -/
def bytesToWords : List Nat → List Nat
  | a :: b :: c :: d :: rest =>
    (a * 16777216 + b * 65536 + c * 256 + d) :: bytesToWords rest
  | _ => []

/-- Split a byte list into 64-byte blocks (fuel-driven). -/
def chunk64 : Nat → List Nat → List (List Nat)
  | 0, _ => []
  | _ + 1, [] => []
  | n + 1, bs => bs.take 64 :: chunk64 n (bs.drop 64)

/-- SHA-256 padding: `0x80`, zeros, then the bit length in 8 big-endian
bytes, to a multiple of 64 bytes. -/
def sha256Pad (msg : List Nat) : List Nat :=
  msg ++ 0x80 :: List.replicate ((119 - msg.length % 64) % 64) 0 ++
    toBytesBE 8 (msg.length * 8)

/-- `hashlib.sha256(msg).digest()`: the 32-byte SHA-256 digest. -/
def sha256 (msg : List Nat) : List Nat :=
  let blocks := (chunk64 (sha256Pad msg).length (sha256Pad msg)).map
    bytesToWords
  (blocks.foldl sha256Compress sha256H0).flatMap (toBytesBE 4)

/-! ## PKCE generator (`generate_pkce`, src/main.py lines 52-56) -/

structure PkceCodes where
  code_verifier : String
  code_challenge : String

/-- Drop trailing characters satisfying `p` (Python `rstrip`). -/
def dropTrailing (p : Char → Bool) (cs : List Char) : List Char :=
  (cs.reverse.dropWhile p).reverse

/-- The function `generate_pkce()`:

```python
code_verifier = secrets.token_hex(64)
digest = hashlib.sha256(code_verifier.encode()).digest()
code_challenge = base64.urlsafe_b64encode(digest).rstrip(b"=").decode()
return PkceCodes(code_verifier=code_verifier, code_challenge=code_challenge)
```

The random verifier drawn from `secrets.token_hex(64)` is modelled as an
explicit argument; everything after the draw is deterministic. -/
def generate_pkce (code_verifier : String) : PkceCodes :=
  let digest := sha256 (utf8Encode code_verifier)
  let code_challenge :=
    String.mk (dropTrailing (fun c => c = '=') (b64urlEncode digest))
  ⟨code_verifier, code_challenge⟩

/-! ## Credential store (`load_auth` / `save_auth`, src/main.py lines 71-90)

The credential file `~/.jose-gpt/auth.json` is the only file the core
touches; its state is modelled explicitly.  `json.load`/`json.dump` are
stdlib and are modelled at the document level: a readable file either
holds a JSON document or fails to parse (`corrupt`). -/

inductive FileState where
  | absent
  | corrupt
  | stored (doc : Json)

/-- The function `load_auth()`: returns the parsed file, or `None` when
the file is absent or any exception (e.g. invalid JSON) occurs. -/
def load_auth : FileState → Option Json
  | .absent => none
  | .corrupt => none
  | .stored doc => some doc

/-- The function `save_auth(auth)`: creates the directory, writes the full
JSON-serialized record (a whole-file overwrite), returns success.  Disk
failures (the `except` branch returning `False`) are environmental and are
not modelled: in this model the write always succeeds. -/
def save_auth (_fs : FileState) (auth : Json) : FileState × Bool :=
  (.stored auth, true)

/-! ## Token refresher (`refresh_tokens`, src/main.py lines 105-135) -/

/-- The token endpoint's answer to the refresh POST, passed as an oracle:
either the request raised (network error/timeout), or a response arrived
with a status code and — when `resp.json()` succeeds — a parsed body. -/
inductive RefreshResponse where
  | netError
  | httpResponse (status : Nat) (body : Option Json)

/-- The extraction half of `refresh_tokens`, after a response with status
below 400 whose body parsed as `data` (any raised exception here is caught
by the surrounding `try`):

```python
id_token = data.get("id_token")
access_token = data.get("access_token")
new_refresh_token = data.get("refresh_token", refresh_token)
claims = parse_jwt_claims(id_token) or {}
auth_claims = claims.get("https://api.openai.com/auth", {})
account_id = auth_claims.get("chatgpt_account_id", "")
return {"id_token": ..., "access_token": ..., "refresh_token": ...,
        "account_id": ...}
```

`parse_jwt_claims` itself raises `AttributeError` on a truthy non-string
argument (its `token.count` call precedes its own `try`), which the model
reproduces. -/
def refreshExtract (refresh_token : PyVal) (data : Json) :
    Except String Json := do
  let id_token ← pyGet (some data) "id_token"
  let access_token ← pyGet (some data) "access_token"
  let new_refresh_token ← pyGetD (some data) "refresh_token" refresh_token
  let claims : PyVal ←
    match id_token with
    | none => pure none
    | some (.str s) => pure (parse_jwt_claims s)
    | some j => if j.truthy then .error "AttributeError" else pure none
  let claimsOr : Json :=
    match claims with
    | some j => if j.truthy then j else .obj []
    | none => .obj []
  let auth_claims ←
    pyGetD (some claimsOr) "https://api.openai.com/auth" (some (.obj []))
  let account_id ← pyGetD auth_claims "chatgpt_account_id" (some (.str ""))
  pure (.obj [("id_token", pyToJson id_token),
              ("access_token", pyToJson access_token),
              ("refresh_token", pyToJson new_refresh_token),
              ("account_id", pyToJson account_id)])

/-- The function `refresh_tokens(refresh_token)`: POSTs the refresh grant
and returns the new token record, or `None` when the request raises, the
status code is at least 400, the body fails to parse as JSON, or any
extraction step raises (everything is inside one `try`). -/
def refresh_tokens (refresh_token : PyVal) (resp : RefreshResponse) :
    Option Json :=
  match resp with
  | .netError => none
  | .httpResponse status body =>
    if 400 ≤ status then none
    else
      match body with
      | none => none
      | some data =>
        match refreshExtract refresh_token data with
        | .ok t => some t
        | .error _ => none

/-! ## Token validity gate (`get_valid_tokens`, src/main.py lines 138-176) -/

/-- Non-inclusive bounds outside which
`datetime.datetime.fromtimestamp(x, timezone.utc)` raises (the representable
range is year 1 to year 9999); the `except` around the conversion then
forces a refresh. -/
def tsMin : Rat := -62135596800

def tsMax : Rat := 253402300799 + (999999 : Rat) / 1000000

/-- The refresh decision made from the `exp` claim value (src/main.py
lines 153-160): only an `int`/`float` (or `bool`, a Python `int`
subclass) claim is examined; conversion failure or an expiry at most
five minutes away demands a refresh; any other claim value leaves
`should_refresh` untouched (i.e. `False`).  `float("nan")` and the
infinities pass the `isinstance` test and always make `fromtimestamp`
raise, so they demand a refresh. -/
def refreshDecision (exp : PyVal) (now : Rat) : Bool :=
  match exp with
  | some (.num q) =>
    if q < tsMin ∨ tsMax < q then true else decide (q ≤ now + 300)
  | some (.bool b) =>
    let q : Rat := if b then 1 else 0
    decide (q ≤ now + 300)
  | some .nan => true
  | some (.inf _) => true
  | _ => false

/-- The value of `parse_jwt_claims(access_token) or {}` (src/main.py
line 152): Python `or` replaces any falsy left operand — `None`, but also
`{}`, `[]`, `0`, `""`, `False` — with the empty dict. -/
def claimsEff (s : String) : Json :=
  match parse_jwt_claims s with
  | some j => if j.truthy then j else .obj []
  | none => .obj []

/-- The `should_refresh` computation of `get_valid_tokens` (src/main.py
lines 150-162):

```python
should_refresh = False
if access_token:
    claims = parse_jwt_claims(access_token) or {}
    exp = claims.get("exp")
    now = datetime.datetime.now(datetime.timezone.utc)
    if isinstance(exp, (int, float)):
        try:
            expiry = datetime.datetime.fromtimestamp(float(exp), ...)
            should_refresh = expiry <= now + datetime.timedelta(minutes=5)
        except Exception:
            should_refresh = True
else:
    should_refresh = True
```

A truthy non-string `access_token` makes `parse_jwt_claims` raise
(uncaught here); a truthy non-dict claims value makes `claims.get`
raise (uncaught here). -/
def shouldRefreshFor (access_token : PyVal) (now : Rat) :
    Except String Bool :=
  if truthyPy access_token then
    match access_token with
    | some (.str s) =>
      match pyGet (some (claimsEff s)) "exp" with
      | .error e => .error e
      | .ok exp => .ok (refreshDecision exp now)
    | _ => .error "AttributeError"
  else
    .ok true

/-- Tail of `get_valid_tokens` (src/main.py lines 164-176): attempt the
refresh when demanded and a truthy `refresh_token` exists, persisting and
returning the new record on success, `None` on refresh failure; otherwise
hand back the stored `access_token`/`account_id` pair.  The `Bool` in the
result records whether `refresh_tokens` was invoked. -/
def gvtFinish (auth : Json) (fs : FileState) (access_token refresh_token
    account_id : PyVal) (should_refresh : Bool) (resp : RefreshResponse)
    (nowIso : String) : Except String (PyVal × FileState × Bool) :=
  if should_refresh && truthyPy refresh_token then
    match refresh_tokens refresh_token resp with
    | some new_tokens =>
      match pySetItem auth "tokens" new_tokens with
      | .error e => .error e
      | .ok a1 =>
        match pySetItem a1 "last_refresh" (.str nowIso) with
        | .error e => .error e
        | .ok a2 => .ok (some new_tokens, (save_auth fs a2).1, true)
    | none => .ok (none, fs, true)
  else
    .ok (some (.obj [("access_token", pyToJson access_token),
                     ("account_id", pyToJson account_id)]), fs, false)

/-- Body of `get_valid_tokens` once a truthy auth record is loaded
(src/main.py lines 143-176). -/
def getValidWithAuth (auth : Json) (fs : FileState) (now : Rat)
    (resp : RefreshResponse) (nowIso : String) :
    Except String (PyVal × FileState × Bool) :=
  match pyGetD (some auth) "tokens" (some (.obj [])) with
  | .error e => .error e
  | .ok tokens =>
    match pyGet tokens "access_token" with
    | .error e => .error e
    | .ok access_token =>
      match pyGet tokens "refresh_token" with
      | .error e => .error e
      | .ok refresh_token =>
        match pyGet tokens "account_id" with
        | .error e => .error e
        | .ok account_id =>
          match shouldRefreshFor access_token now with
          | .error e => .error e
          | .ok should_refresh =>
            gvtFinish auth fs access_token refresh_token account_id
              should_refresh resp nowIso

/-- The function `get_valid_tokens()` (src/main.py lines 138-176).  Inputs
beyond the stored file: `now` (seconds since epoch, from
`datetime.now(timezone.utc)`), the token endpoint oracle `resp`, and the
ISO timestamp `nowIso` written into `last_refresh` on a successful
refresh.  Output: the returned Python value (a token dict or `None`), the
file state after the call, and whether `refresh_tokens` was invoked;
`.error` marks an uncaught Python exception (which writes nothing). -/
def get_valid_tokens (fs : FileState) (now : Rat) (resp : RefreshResponse)
    (nowIso : String) : Except String (PyVal × FileState × Bool) :=
  match load_auth fs with
  | none => .ok (none, fs, false)
  | some auth =>
    if auth.truthy then getValidWithAuth auth fs now resp nowIso
    else .ok (none, fs, false)

/-! ## URL and query-string parsing (models `urllib.parse.urlparse` /
`parse_qs` as used by the callback handler)

Only the pieces the handler touches are modelled: the path/query/fragment
split of a relative request path, `&`-separated pairs, skipping of blank
values (CPython's default `keep_blank_values=False`), `+` as space, and
percent-decoding (UTF-8 with replacement characters).  The `;params`
field of `urlparse` is not modelled (no registered route contains a
semicolon). -/

/-- Split a character list on a separator (Python `str.split(sep)`). -/
def splitOnSep (sep : Char) : List Char → List (List Char)
  | [] => [[]]
  | c :: rest =>
    let r := splitOnSep sep rest
    if c = sep then [] :: r
    else
      match r with
      | s :: ss => (c :: s) :: ss
      | [] => [[c]]

/-- Path component of a relative URL: everything before `?` or `#`. -/
def urlPath (raw : List Char) : List Char :=
  raw.takeWhile (fun c => !(c == '?' || c == '#'))

/-- Query component of a relative URL: between `?` and `#`, if present. -/
def urlQuery (raw : List Char) : List Char :=
  match raw.dropWhile (fun c => !(c == '?' || c == '#')) with
  | '?' :: rest => rest.takeWhile (fun c => c != '#')
  | _ => []


/-- Lenient UTF-8 decoding (`errors="replace"`): invalid sequences become
U+FFFD instead of failing; fuel-driven (one byte consumed per step at
minimum, so the byte count is sufficient fuel). -/
def utf8DecodeReplaceF : Nat → List Nat → List Char
  | 0, _ => []
  | _ + 1, [] => []
  | fuel + 1, b :: rest =>
    if b < 0x80 then Char.ofNat b :: utf8DecodeReplaceF fuel rest
    else if 0xC2 ≤ b ∧ b < 0xE0 then
      match rest with
      | b1 :: rest' =>
        if 0x80 ≤ b1 ∧ b1 < 0xC0 then
          Char.ofNat ((b - 0xC0) * 64 + (b1 - 0x80)) ::
            utf8DecodeReplaceF fuel rest'
        else Char.ofNat 0xFFFD :: utf8DecodeReplaceF fuel rest
      | [] => [Char.ofNat 0xFFFD]
    else if 0xE0 ≤ b ∧ b < 0xF0 then
      match rest with
      | b1 :: b2 :: rest' =>
        let n := (b - 0xE0) * 4096 + (b1 - 0x80) * 64 + (b2 - 0x80)
        if 0x80 ≤ b1 ∧ b1 < 0xC0 ∧ 0x80 ≤ b2 ∧ b2 < 0xC0 ∧
            0x800 ≤ n ∧ ¬(0xD800 ≤ n ∧ n ≤ 0xDFFF) then
          Char.ofNat n :: utf8DecodeReplaceF fuel rest'
        else Char.ofNat 0xFFFD :: utf8DecodeReplaceF fuel rest
      | _ => Char.ofNat 0xFFFD :: utf8DecodeReplaceF fuel rest
    else if 0xF0 ≤ b ∧ b < 0xF5 then
      match rest with
      | b1 :: b2 :: b3 :: rest' =>
        let n := (b - 0xF0) * 262144 + (b1 - 0x80) * 4096 +
                 (b2 - 0x80) * 64 + (b3 - 0x80)
        if 0x80 ≤ b1 ∧ b1 < 0xC0 ∧ 0x80 ≤ b2 ∧ b2 < 0xC0 ∧
            0x80 ≤ b3 ∧ b3 < 0xC0 ∧ 0x10000 ≤ n ∧ n ≤ 0x10FFFF then
          Char.ofNat n :: utf8DecodeReplaceF fuel rest'
        else Char.ofNat 0xFFFD :: utf8DecodeReplaceF fuel rest
      | _ => Char.ofNat 0xFFFD :: utf8DecodeReplaceF fuel rest
    else Char.ofNat 0xFFFD :: utf8DecodeReplaceF fuel rest

def utf8DecodeReplace (bs : List Nat) : List Char :=
  utf8DecodeReplaceF bs.length bs

/-- Collect a maximal run of `%XX` escapes as bytes; a malformed escape
ends the run and is passed back verbatim. -/
def pctRun : List Char → List Nat × List Char
  | '%' :: h :: l :: rest =>
    (match hexVal? h, hexVal? l with
     | some a, some b =>
       let (bs, r) := pctRun rest
       ((a * 16 + b) :: bs, r)
     | _, _ => ([], '%' :: h :: l :: rest))
  | cs => ([], cs)

/-- `urllib.parse.unquote` with `+` already replaced by space: `%XX` runs
decode as UTF-8 with replacement, everything else passes through. -/
def unquoteChars : Nat → List Char → List Char
  | 0, _ => []
  | _ + 1, [] => []
  | fuel + 1, c :: cs =>
    match pctRun (c :: cs) with
    | ([], _) => c :: unquoteChars fuel cs
    | (bs, r) => utf8DecodeReplace bs ++ unquoteChars fuel r

/-- One query-string component: `+` to space, then percent-decoding. -/
def unquotePlus (cs : List Char) : String :=
  let sp := cs.map (fun c => if c = '+' then ' ' else c)
  String.mk (unquoteChars sp.length sp)

/-- `urllib.parse.parse_qsl`: the decoded name/value pairs, in order, with
blank values skipped (default `keep_blank_values=False`). -/
def parse_qsl (query : List Char) : List (String × String) :=
  (splitOnSep '&' query).foldr
    (fun item acc =>
      if item.isEmpty then acc
      else
        let name := item.takeWhile (fun c => c != '=')
        let value := (item.dropWhile (fun c => c != '=')).drop 1
        if value.isEmpty then acc
        else (unquotePlus name, unquotePlus value) :: acc)
    []

/-- `parse_qs(query).get(key, [None])[0]`: the first value bound to
`key`, or Python `None`. -/
def qsFirst (query : List Char) (key : String) : Option String :=
  ((parse_qsl query).find? (fun p => p.1 = key)).map (·.2)

/-! ## Callback listener (`OAuthHandler.do_GET` / `OAuthServer`,
src/main.py lines 179-290) -/

/-- The per-login mutable server state (`OAuthServer.__init__`
lines 240-242): captured tokens, success flag, shutdown flag.  The PKCE
pair, `state` string and redirect URI are per-login constants and do not
change after construction. -/
structure ServerState where
  tokens : PyVal
  success : Bool
  shutdown_flag : Bool

/-- Fresh server state: `tokens = None`, `success = False`,
`shutdown_flag = False`. -/
def initServerState : ServerState :=
  { tokens := none, success := false, shutdown_flag := false }

/-- What the token endpoint does when `exchange_code` POSTs to it, as an
oracle: `raise` covers network failures, non-2xx `HTTPError`s raised by
`urllib.request.urlopen`, and bodies on which `json.loads` raises;
`body` is a successfully parsed response body. -/
inductive ExchangeOutcome where
  | raise (msg : String)
  | body (payload : Json)

/-- The method `OAuthServer.exchange_code(code)` (src/main.py lines
258-290), after the POST: pull `id_token`/`access_token`/`refresh_token`
out of the body (defaulting to `""` when missing), decode the identity
claims, and read `account_id` from the provider claim namespace.  Unlike
`refresh_tokens` there is no `try` here: any failure propagates to the
caller. -/
def exchange_code (o : ExchangeOutcome) : Except String Json := do
  match o with
  | .raise msg => .error msg
  | .body payload =>
    let id_token ← pyGetD (some payload) "id_token" (some (.str ""))
    let access_token ← pyGetD (some payload) "access_token" (some (.str ""))
    let refresh_token ← pyGetD (some payload) "refresh_token"
      (some (.str ""))
    let claims : PyVal ←
      match id_token with
      | none => pure none
      | some (.str s) => pure (parse_jwt_claims s)
      | some j => if j.truthy then .error "AttributeError" else pure none
    let claimsOr : Json :=
      match claims with
      | some j => if j.truthy then j else .obj []
      | none => .obj []
    let auth_claims ←
      pyGetD (some claimsOr) "https://api.openai.com/auth" (some (.obj []))
    let account_id ← pyGetD auth_claims "chatgpt_account_id" (some (.str ""))
    pure (.obj [("id_token", pyToJson id_token),
                ("access_token", pyToJson access_token),
                ("refresh_token", pyToJson refresh_token),
                ("account_id", pyToJson account_id)])

/-- An HTTP response as assembled by the handler: status line, headers,
body text. -/
structure HttpResponse where
  status : Nat
  headers : List (String × String)
  body : String

/-- The static confirmation page served at `/success`. -/
def successPage : String :=
  "\n            <html><body style=\"font-family: system-ui; " ++
  "max-width: 600px; margin: 80px auto;\">\n            " ++
  "<h1>Login Successful!</h1>\n            " ++
  "<p>You can close this window and return to the terminal.</p>\n" ++
  "            </body></html>\n            "

/-- The method `OAuthHandler.do_GET` (src/main.py lines 183-230), as a
function from the raw request path, the current server state and the
token endpoint oracle to the response and the new server state:

* `/success`: 200 with the static page, state untouched;
* `/auth/callback` without a truthy `code` query parameter: 400
  "Missing auth code", shutdown signalled, success untouched (the login
  session stays failed);
* `/auth/callback` with a code: run `exchange_code`; on success store the
  tokens, set the success flag and answer 302 to `/success`; on an
  exception answer 500 with the error text; either way signal shutdown;
* anything else: 404, state untouched.

The handler itself never raises: the only raising call, `exchange_code`,
sits inside `try`. -/
def do_GET (st : ServerState) (exch : ExchangeOutcome) (rawPath : String) :
    HttpResponse × ServerState :=
  let path := String.mk (urlPath rawPath.data)
  if path = "/success" then
    ({ status := 200, headers := [("Content-Type", "text/html")],
       body := successPage }, st)
  else if path = "/auth/callback" then
    let code := qsFirst (urlQuery rawPath.data) "code"
    if truthyPy (code.map Json.str) = false then
      ({ status := 400, headers := [("Content-Type", "text/plain")],
         body := "Missing auth code" },
       { st with shutdown_flag := true })
    else
      match exchange_code exch with
      | .ok tokens =>
        ({ status := 302,
           headers := [("Location", "http://localhost:1455/success")],
           body := "" },
         { st with tokens := some tokens, success := true,
                   shutdown_flag := true })
      | .error e =>
        ({ status := 500, headers := [("Content-Type", "text/plain")],
           body := "Error: " ++ e },
         { st with shutdown_flag := true })
  else
    ({ status := 404, headers := [], body := "" }, st)

/-! ## Login orchestrator (`do_login`, src/main.py lines 293-351)

The serving loop `while not server.shutdown_flag: server.handle_request()`
processes one request at a time; the concurrent stdin worker performs the
same `exchange_code`/store/flag mutations as the callback route and, like
every request handler, never touches the credential file.  A login run is
therefore modelled as a sequence of requests folded through `do_GET`
until the shutdown flag stops the loop, followed by the persistence
epilogue (lines 341-351). -/

/-- One inbound request: its raw path, and what the token endpoint would
answer should this request trigger a code exchange. -/
structure LoginEvent where
  rawPath : String
  exch : ExchangeOutcome

/-- The serving loop: handle requests until the shutdown flag is set. -/
def runEvents : List LoginEvent → ServerState → ServerState
  | [], st => st
  | e :: rest, st =>
    if st.shutdown_flag then st
    else runEvents rest (do_GET st e.exch e.rawPath).2

/-- The epilogue of `do_login` (src/main.py lines 341-351): persist and
report success only when tokens were captured and the success flag is
set:

```python
if server.tokens and server.success:
    auth = {"tokens": server.tokens, "last_refresh": ...isoformat()}
    if save_auth(auth):
        return True
print("Login failed.")
return False
``` -/
def do_login_finish (st : ServerState) (nowIso : String) (fs : FileState) :
    FileState × Bool :=
  if truthyPy st.tokens && st.success then
    let auth := Json.obj [("tokens", pyToJson st.tokens),
                          ("last_refresh", .str nowIso)]
    let (fs', saved) := save_auth fs auth
    (fs', saved)
  else (fs, false)

/-- The function `do_login()` from the point the listener is up: serve
requests until shutdown, then run the persistence epilogue.  Returns the
file state after the call and `do_login`'s boolean result. -/
def do_login (events : List LoginEvent) (nowIso : String) (fs : FileState) :
    FileState × Bool :=
  do_login_finish (runEvents events initServerState) nowIso fs

/-! ## Support for concrete instances

Batteries marks `Rat` arithmetic `@[irreducible]`; re-opening it locally
lets concrete rational arithmetic evaluate inside `rfl`/`decide` proofs
about the definitions above. -/

attribute [local semireducible] Rat.add Rat.mul Rat.inv Rat.sub
  Rat.ofScientific

/-- Base64url without padding, exactly as `generate_pkce` produces it
(`urlsafe_b64encode(x).rstrip(b"=")`). -/
def b64urlNoPad (bs : List Nat) : String :=
  String.mk (dropTrailing (fun c => c = '=') (b64urlEncode bs))

/-- A synthetic three-part JWT with the given payload text and opaque
header/signature segments, for concrete instances. -/
def mkJwt (payload : String) : String :=
  "h." ++ b64urlNoPad (utf8Encode payload) ++ ".s"

/-- A token whose claims are `\x7b"exp": 100\x7d`: long expired. -/
def tokExp100 : String := mkJwt "\x7b\"exp\":100\x7d"

/-- A token whose claims are `\x7b"exp": 1000000900\x7d`: fifteen minutes
past the reference instant `now = 10^9`. -/
def tokExpFut : String := mkJwt "\x7b\"exp\":1000000900\x7d"

/-- Sanity anchor for the SHA-256 model: the FIPS 180-4 test vector for
the message `"abc"`. -/
theorem sha256_vector_abc :
    sha256 (utf8Encode "abc") =
      [0xba, 0x78, 0x16, 0xbf, 0x8f, 0x01, 0xcf, 0xea,
       0x41, 0x41, 0x40, 0xde, 0x5d, 0xae, 0x22, 0x23,
       0xb0, 0x03, 0x61, 0xa3, 0x96, 0x17, 0x7a, 0x9c,
       0xb4, 0x10, 0xff, 0x61, 0xf2, 0x00, 0x15, 0xad] := by decide

/-! ## Claim C5: the PKCE challenge -/

/-- C5: for every verifier, `generate_pkce` returns the verifier together
with the base64url-no-padding encoding of the SHA-256 digest of the
verifier's UTF-8 bytes; the challenge is a function of the verifier
alone. -/
theorem C5_pkce_challenge_is_b64url_sha256 (v : String) :
    generate_pkce v =
      { code_verifier := v,
        code_challenge := b64urlNoPad (sha256 (utf8Encode v)) } := rfl

/-! ## Claim C9: the credential store -/

/-- C9: saving any record and loading it back yields the record
unchanged, from any prior store state; loading from an absent file or a
file with unparseable contents yields `None` without raising. -/
theorem C9_store_roundtrip_and_load_failures (fs : FileState) (c : Json) :
    load_auth (save_auth fs c).1 = some c ∧
    load_auth .absent = none ∧
    load_auth .corrupt = none :=
  ⟨rfl, rfl, rfl⟩

/-! ## Claim C6: totality and shape of claim extraction

The claim's totality half is right, but its failure set is not: an
"invalid base64url payload" need not yield `None`, because CPython's
decoder is lenient — it discards foreign characters and stops at a
completed padding sequence.  The payload `e30=!` (with `!`, in no base64
alphabet) decodes to `b"\x7b\x7d"` and the extractor returns the empty
mapping. -/

/-- The decode pipeline applied to the middle segment: restore padding,
decode with CPython's lenient base64 (`b64urlDecode`), strict UTF-8
decode, JSON parse; `none` at whichever stage fails. -/
def jwtPayloadDecode (payload : List Char) : Option Json :=
  let padded := payload ++ List.replicate ((4 - payload.length % 4) % 4) '='
  (b64urlDecode padded).bind fun bytes =>
    (utf8Decode bytes).bind fun cs => Json.parse cs

/-- C6 as stated is false on the code: the token `h.e30=!.s` has three
dot-separated parts whose payload `e30=!` contains `!`, a character in
no base64 alphabet — an invalid base64url payload — yet claim extraction
returns the mapping `\x7b\x7d`, not `None`. -/
theorem C6_lenient_base64_cex :
    b64Char? '!' = none ∧ '!' ∈ "e30=!".data ∧
    parse_jwt_claims "h.e30=!.s" = some (Json.obj []) :=
  ⟨rfl, by decide, rfl⟩

/-- C6 amended: claim extraction is a total function (every Python
exception is caught): on the empty string or a segment count other than
three it is `None`; otherwise it equals the payload decode pipeline —
CPython's lenient base64 decode, then strict UTF-8 decode, then JSON
parse — which returns `None` exactly when one of those stages fails and
the decoded payload otherwise.  In particular a payload that is invalid
base64url may still decode (see `C6_lenient_base64_cex`). -/
theorem C6_claim_extraction_total (t : String) :
    parse_jwt_claims t =
      if t ≠ "" ∧ t.data.count '.' = 2 then
        jwtPayloadDecode ((splitOnDot t.data).getD 1 [])
      else none := by
  by_cases h1 : t = ""
  · subst h1; rfl
  · by_cases h2 : t.data.count '.' = 2
    · have hlen : (splitOnDot t.data).length = 3 := by
        rw [splitOnDot_length, h2]
      obtain ⟨a, b, c, hsp⟩ := List.length_eq_three.mp hlen
      have hcond : ¬(t = "" ∨ t.data.count '.' ≠ 2) := by
        push_neg
        exact ⟨h1, h2⟩
      simp only [parse_jwt_claims, jwtPayloadDecode, hsp, if_neg hcond,
        if_pos (And.intro h1 h2), List.getD_cons_succ, List.getD_cons_zero]
      cases hb : b64urlDecode (b ++ List.replicate ((4 - b.length % 4) % 4) '=') with
      | none => simp
      | some bytes =>
        cases hu : utf8Decode bytes with
        | none => simp [hu]
        | some cs => simp [hu]
    · have hcond : t = "" ∨ t.data.count '.' ≠ 2 := Or.inr h2
      simp [parse_jwt_claims, hcond, h2]

/-! ## Claim C7: callback without a code -/

/-- C7: a `GET` to `/auth/callback` whose query carries no `code`
parameter draws a 400 response, leaves the success flag unset (the login
session stays failed) and signals shutdown.  `do_GET` is a total
function — the only raising call, `exchange_code`, is not reached — so
the listener does not crash. -/
theorem C7_missing_code_yields_400 (st : ServerState)
    (exch : ExchangeOutcome) (raw : String)
    (hpath : String.mk (urlPath raw.data) = "/auth/callback")
    (hcode : qsFirst (urlQuery raw.data) "code" = none)
    (hsucc : st.success = false) :
    (do_GET st exch raw).1.status = 400 ∧
    (do_GET st exch raw).2.success = false ∧
    (do_GET st exch raw).2.shutdown_flag = true := by
  have h1 : ("/auth/callback" : String) ≠ "/success" := by decide
  simp [do_GET, hpath, hcode, truthyPy, hsucc, h1]

/-- Concrete instance of `C7_missing_code_yields_400`: a fresh session
and the request `/auth/callback?state=xyz`. -/
theorem C7_missing_code_yields_400_witness :
    (do_GET initServerState (.raise "x") "/auth/callback?state=xyz").1.status
        = 400 ∧
    (do_GET initServerState (.raise "x")
        "/auth/callback?state=xyz").2.success = false ∧
    (do_GET initServerState (.raise "x")
        "/auth/callback?state=xyz").2.shutdown_flag = true :=
  C7_missing_code_yields_400 initServerState (.raise "x")
    "/auth/callback?state=xyz" (by decide) (by decide) rfl

/-! ## Claim C8: callback with a code and a successful exchange -/

/-- C8: a `GET` to `/auth/callback` carrying a `code` for which the code
exchange succeeds stores the resulting credential in the session, answers
302 with `Location: http://localhost:1455/success`, sets the success flag
and signals shutdown. -/
theorem C8_callback_code_exchange_success (st : ServerState)
    (exch : ExchangeOutcome) (raw : String) (cstr : String) (cred : Json)
    (hpath : String.mk (urlPath raw.data) = "/auth/callback")
    (hcode : qsFirst (urlQuery raw.data) "code" = some cstr)
    (hne : cstr ≠ "")
    (hex : exchange_code exch = .ok cred) :
    (do_GET st exch raw).1.status = 302 ∧
    (do_GET st exch raw).1.headers =
      [("Location", "http://localhost:1455/success")] ∧
    (do_GET st exch raw).2.tokens = some cred ∧
    (do_GET st exch raw).2.success = true ∧
    (do_GET st exch raw).2.shutdown_flag = true := by
  have h1 : ("/auth/callback" : String) ≠ "/success" := by decide
  have htr : truthyPy ((qsFirst (urlQuery raw.data) "code").map Json.str)
      = true := by
    rw [hcode]
    simp [truthyPy, Json.truthy, hne]
  simp [do_GET, hpath, h1, htr, hex]

/-- The token-endpoint body used in the C8 instance. -/
def exchBody : Json :=
  .obj [("id_token", .str ""), ("access_token", .str "a"),
        ("refresh_token", .str "r")]

/-- The credential `exchange_code` builds out of `exchBody`. -/
def credOfBody : Json :=
  .obj [("id_token", .str ""), ("access_token", .str "a"),
        ("refresh_token", .str "r"), ("account_id", .str "")]

/-- Concrete instance of `C8_callback_code_exchange_success`: the request
`/auth/callback?code=abc123&state=xyz` against a token endpoint answering
a valid JSON token payload. -/
theorem C8_callback_code_exchange_success_witness :
    (do_GET initServerState (.body exchBody)
        "/auth/callback?code=abc123&state=xyz").1.status = 302 ∧
    (do_GET initServerState (.body exchBody)
        "/auth/callback?code=abc123&state=xyz").1.headers =
      [("Location", "http://localhost:1455/success")] ∧
    (do_GET initServerState (.body exchBody)
        "/auth/callback?code=abc123&state=xyz").2.tokens = some credOfBody ∧
    (do_GET initServerState (.body exchBody)
        "/auth/callback?code=abc123&state=xyz").2.success = true ∧
    (do_GET initServerState (.body exchBody)
        "/auth/callback?code=abc123&state=xyz").2.shutdown_flag = true :=
  C8_callback_code_exchange_success initServerState (.body exchBody)
    "/auth/callback?code=abc123&state=xyz" "abc123" credOfBody
    (by decide) (by decide) (by decide) rfl

/-! ## Claim C10: a failed login never writes the store -/

/-- C10: when a login run ends without a successful exchange — the
success flag unset, or no truthy tokens captured — `do_login` performs no
save: the file state is returned untouched and the result is `False`.
(No request handler writes the file either: `do_GET` does not take or
produce a `FileState` at all, so the only write in a login is the
epilogue's.) -/
theorem C10_failed_login_leaves_store (events : List LoginEvent)
    (iso : String) (fs : FileState)
    (h : (runEvents events initServerState).success = false ∨
         truthyPy (runEvents events initServerState).tokens = false) :
    do_login events iso fs = (fs, false) := by
  unfold do_login do_login_finish
  rcases h with h | h <;> simp [h]

/-- Concrete instance of `C10_failed_login_leaves_store`: a login whose
only callback arrives without a code, so the session never succeeds. -/
theorem C10_failed_login_leaves_store_witness :
    do_login [⟨"/auth/callback?state=1", .raise "boom"⟩] "iso" .absent =
      (.absent, false) :=
  C10_failed_login_leaves_store _ _ _ (Or.inl (by decide))

/-! ## Claim C1: when the gate decides a refresh is needed

The claim asserts refresh is needed when claims are absent/undecodable or
`exp` is missing.  The code does the opposite there: `should_refresh`
starts `False` and is only ever set when a *numeric* `exp` claim is
present, so undecodable claims and a missing `exp` leave the token
treated as valid. -/

/-- Helper: on a non-empty access-token string the `should_refresh`
computation reduces to the decision on the `exp` claim of the effective
claims dict (or an `AttributeError` when the decoded claims are a truthy
non-dict). -/
theorem shouldRefreshFor_str (s : String) (now : Rat) (h : s ≠ "") :
    shouldRefreshFor (some (.str s)) now =
      match claimsEff s with
      | .obj kvs => .ok (refreshDecision (denull (jlookup kvs "exp")) now)
      | _ => .error "AttributeError" := by
  have ht : truthyPy (some (Json.str s)) = true := by
    simp [truthyPy, Json.truthy, h]
  unfold shouldRefreshFor
  rw [ht]
  cases hc : claimsEff s <;> simp only [hc] <;> simp [pyGet]

/-- The numeric value CPython's `isinstance(exp, (int, float))` accepts
for the `exp` claim (booleans are `int` subclasses: `True` is 1, `False`
is 0); `none` when the claims are not a dict or carry no numeric `exp`.
`NaN` and the infinities are numeric for `isinstance` and always make
`fromtimestamp` raise — behaviourally identical to any out-of-range
number — so they are mapped to representative rationals just outside
the convertible range (`tsMax + 1`, and `tsMin - 1` for `-Infinity`). -/
def expOf (s : String) : Option Rat :=
  match claimsEff s with
  | .obj kvs =>
    match denull (jlookup kvs "exp") with
    | some (.num q) => some q
    | some (.bool b) => some (if b then 1 else 0)
    | some .nan => some (tsMax + 1)
    | some (.inf neg) => some (if neg then tsMin - 1 else tsMax + 1)
    | _ => none
  | _ => none

/-- C1 as stated is false on the code: `"x.y.z"` is a non-empty access
token whose claims do not decode, so the claim demands a refresh — yet
the gate decides no refresh is needed. -/
theorem C1_undecodable_claims_cex :
    "x.y.z" ≠ "" ∧ parse_jwt_claims "x.y.z" = none ∧
    shouldRefreshFor (some (Json.str "x.y.z")) 0 = Except.ok false :=
  ⟨by decide, rfl, rfl⟩

/-- C1 amended: for a non-empty access-token string, the gate decides a
refresh is needed exactly when the token's claims decode to a dict
carrying a numeric `exp` that is out of timestamp-conversion range or at
most five minutes past the current time; undecodable claims and a
missing (or non-numeric) `exp` do NOT trigger a refresh. -/
theorem C1_refresh_decision_exact (s : String) (now : Rat) (h : s ≠ "") :
    (shouldRefreshFor (some (Json.str s)) now = Except.ok true) ↔
    (∃ q, expOf s = some q ∧ (q < tsMin ∨ tsMax < q ∨ q ≤ now + 300)) := by
  rw [shouldRefreshFor_str s now h]
  unfold expOf
  cases hc : claimsEff s with
  | obj kvs =>
    simp only [hc]
    cases hd : denull (jlookup kvs "exp") with
    | none => simp [hd, refreshDecision]
    | some v =>
      cases v with
      | num q =>
        simp only [hd, refreshDecision, Except.ok.injEq]
        by_cases hr : q < tsMin ∨ tsMax < q
        · simp only [if_pos hr]
          constructor
          · intro _
            refine ⟨q, rfl, ?_⟩
            rcases hr with h2 | h2
            · exact Or.inl h2
            · exact Or.inr (Or.inl h2)
          · intro _
            trivial
        · have hr' := hr
          push_neg at hr'
          simp only [if_neg hr, decide_eq_true_eq]
          constructor
          · intro hle
            exact ⟨q, rfl, Or.inr (Or.inr hle)⟩
          · rintro ⟨q', hq', hdis⟩
            cases hq'
            rcases hdis with h2 | h2 | h2
            · exact absurd h2 (not_lt.mpr hr'.1)
            · exact absurd h2 (not_lt.mpr hr'.2)
            · exact h2
      | bool b =>
        have h0 : ¬((if b = true then (1 : Rat) else 0) < tsMin) := by
          cases b <;> norm_num [tsMin]
        have h1 : ¬(tsMax < (if b = true then (1 : Rat) else 0)) := by
          cases b <;> norm_num [tsMax]
        simp only [hd, refreshDecision, Except.ok.injEq, decide_eq_true_eq,
          Option.some.injEq]
        constructor
        · intro hle
          exact ⟨_, rfl, Or.inr (Or.inr hle)⟩
        · rintro ⟨q', hq', hdis⟩
          subst hq'
          rcases hdis with h2 | h2 | h2
          · exact absurd h2 h0
          · exact absurd h2 h1
          · exact h2
      | nan =>
        simp only [hd, refreshDecision, Option.some.injEq]
        constructor
        · intro _
          exact ⟨tsMax + 1, rfl, Or.inr (Or.inl (lt_add_one tsMax))⟩
        · intro _
          trivial
      | inf neg =>
        cases neg with
        | false =>
          simp only [hd, refreshDecision, Option.some.injEq,
            Bool.false_eq_true, if_false]
          constructor
          · intro _
            exact ⟨tsMax + 1, rfl, Or.inr (Or.inl (lt_add_one tsMax))⟩
          · intro _
            trivial
        | true =>
          simp only [hd, refreshDecision, Option.some.injEq, if_true]
          constructor
          · intro _
            exact ⟨tsMin - 1, rfl, Or.inl (sub_lt_self tsMin one_pos)⟩
          · intro _
            trivial
      | null => simp [hd, refreshDecision]
      | str _ => simp [hd, refreshDecision]
      | arr _ => simp [hd, refreshDecision]
      | obj _ => simp [hd, refreshDecision]
  | null => simp [hc]
  | bool _ => simp [hc]
  | num _ => simp [hc]
  | nan => simp [hc]
  | inf _ => simp [hc]
  | str _ => simp [hc]
  | arr _ => simp [hc]

/-- Concrete instance of `C1_refresh_decision_exact`: the expired token
`tokExp100` at `now = 10^6`. -/
theorem C1_refresh_decision_exact_witness :
    tokExp100 ≠ "" ∧
    ((shouldRefreshFor (some (Json.str tokExp100)) 1000000 = Except.ok true)
      ↔ (∃ q, expOf tokExp100 = some q ∧
          (q < tsMin ∨ tsMax < q ∨ q ≤ 1000000 + 300))) :=
  ⟨by decide, C1_refresh_decision_exact tokExp100 1000000 (by decide)⟩

/-! ## Claim C2: refresh needed but no refresh token

The claim asserts the gate returns `None`.  The code has no such branch:
when `should_refresh` holds but `refresh_token` is falsy, the
`if should_refresh and refresh_token:` block is skipped and the function
falls through to returning the stored (stale) pair. -/

/-- The stored record used in the C2 instances: an expired access token
and no refresh token at all. -/
def authNoRt : Json :=
  .obj [("tokens", .obj [("access_token", .str tokExp100)])]

/-- C2 as stated is false on the code: with the expired `tokExp100` the
gate decides a refresh is needed and no `refresh_token` is stored, yet
`get_valid_tokens` returns the stale pair (not `None`), calling no
refresh and writing nothing. -/
theorem C2_no_refresh_token_cex :
    shouldRefreshFor (some (Json.str tokExp100)) 1000000 = Except.ok true ∧
    jlookup [("access_token", Json.str tokExp100)] "refresh_token" = none ∧
    get_valid_tokens (.stored authNoRt) 1000000 .netError "iso" =
      .ok (some (.obj [("access_token", Json.str tokExp100),
                       ("account_id", Json.null)]),
           .stored authNoRt, false) :=
  ⟨rfl, rfl, rfl⟩

/-- C2 amended: whenever the gate demands a refresh but the stored record
has no truthy `refresh_token`, `get_valid_tokens` returns the stale
`access_token`/`account_id` pair unchanged — not `None` — with no
refresh call and no write to the store. -/
theorem C2_no_refresh_token_returns_stale (kvs tkvs : List (String × Json))
    (now : Rat) (resp : RefreshResponse) (iso : String)
    (hk : kvs ≠ [])
    (ht : jlookup kvs "tokens" = some (.obj tkvs))
    (hsr : shouldRefreshFor (denull (jlookup tkvs "access_token")) now =
      .ok true)
    (hrt : truthyPy (denull (jlookup tkvs "refresh_token")) = false) :
    get_valid_tokens (.stored (.obj kvs)) now resp iso =
      .ok (some (.obj
        [("access_token", pyToJson (denull (jlookup tkvs "access_token"))),
         ("account_id", pyToJson (denull (jlookup tkvs "account_id")))]),
        .stored (.obj kvs), false) := by
  have htr : (Json.obj kvs).truthy = true := by
    simp [Json.truthy, hk]
  unfold get_valid_tokens load_auth
  simp only [htr, if_true]
  unfold getValidWithAuth
  have hde : denull (some (Json.obj tkvs)) = some (Json.obj tkvs) := rfl
  simp only [pyGetD, ht, hde, pyGet, hsr, gvtFinish, hrt]
  simp

/-- Concrete instance of `C2_no_refresh_token_returns_stale` on
`authNoRt` at `now = 10^6`. -/
theorem C2_no_refresh_token_returns_stale_witness :
    get_valid_tokens (.stored authNoRt) 1000000 .netError "iso" =
      .ok (some (.obj
        [("access_token", pyToJson (denull
            (jlookup [("access_token", Json.str tokExp100)] "access_token"))),
         ("account_id", pyToJson (denull
            (jlookup [("access_token", Json.str tokExp100)] "account_id")))]),
        .stored (.obj [("tokens",
          .obj [("access_token", Json.str tokExp100)])]), false) :=
  C2_no_refresh_token_returns_stale
    [("tokens", .obj [("access_token", Json.str tokExp100)])]
    [("access_token", Json.str tokExp100)] 1000000 .netError "iso"
    (by simp) rfl rfl rfl

/-! ## Claim C3: refresh failure leaves the store untouched

The conclusion of the claim holds for every refresh failure as the code
defines one, and the store is also preserved on every path that does not
perform a successful refresh.  The claim's notion of failure —
"non-2xx" — is however wider than the code's: `refresh_tokens` only
treats `status_code >= 400` as failure, so a 3xx response with a
parseable body is processed as a success, overwriting the store. -/

/-- A refresh attempt that fails as the code defines failure: the POST
raised, or the response status is at least 400. -/
def refreshFails (resp : RefreshResponse) : Prop :=
  resp = .netError ∨
  ∃ status body, resp = .httpResponse status body ∧ 400 ≤ status

/-- On a failing response (and also on an unparseable body, not needed
here) `refresh_tokens` yields `None`. -/
theorem refresh_tokens_fail_none (rt : PyVal) (resp : RefreshResponse)
    (h : refreshFails resp) : refresh_tokens rt resp = none := by
  rcases h with h | ⟨status, body, hb, hst⟩
  · subst h; rfl
  · subst hb
    simp [refresh_tokens, hst]

/-- The stored record used in the C3 instances: an expired access token
together with a refresh token, so the gate attempts a refresh. -/
def authRt : Json :=
  .obj [("tokens", .obj [("access_token", .str tokExp100),
                         ("refresh_token", .str "rt")])]

/-- Token-endpoint body for the C3 counterexample. -/
def body300 : Json :=
  .obj [("id_token", .str ""), ("access_token", .str "na"),
        ("refresh_token", .str "nr")]

/-- The record `refresh_tokens` builds from `body300`. -/
def toks300 : Json :=
  .obj [("id_token", .str ""), ("access_token", .str "na"),
        ("refresh_token", .str "nr"), ("account_id", .str "")]

/-- C3 as stated is false on the code: a response with the non-2xx status
300 and a parseable body is a "failed refresh" per the claim, yet the
gate treats it as success — it returns the new tokens (not `None`) and
overwrites the stored record. -/
theorem C3_non2xx_is_not_failure_cex :
    get_valid_tokens (.stored authRt) 1000000
        (.httpResponse 300 (some body300)) "iso" =
      .ok (some toks300,
           .stored (.obj [("tokens", toks300),
                          ("last_refresh", .str "iso")]),
           true) := rfl

/-- C3 amended: whenever the refresh fails as the code defines failure
(network error or HTTP status at least 400) and `get_valid_tokens`
returns at all, the stored record is exactly what it was before the
call, and if a refresh was attempted the result is `None` (no stale
token is handed back on that path). -/
theorem C3_refresh_failure_none_and_store_unchanged (fs : FileState)
    (now : Rat) (resp : RefreshResponse) (iso : String)
    (r : PyVal) (fs' : FileState) (called : Bool)
    (hfail : refreshFails resp)
    (h : get_valid_tokens fs now resp iso = .ok (r, fs', called)) :
    fs' = fs ∧ (called = true → r = none) := by
  have hrn : ∀ rt, refresh_tokens rt resp = none :=
    fun rt => refresh_tokens_fail_none rt resp hfail
  unfold get_valid_tokens at h
  cases fs with
  | absent =>
    simp only [load_auth, Except.ok.injEq, Prod.mk.injEq] at h
    exact ⟨h.2.1.symm, fun hc => by simp [← h.2.2] at hc⟩
  | corrupt =>
    simp only [load_auth, Except.ok.injEq, Prod.mk.injEq] at h
    exact ⟨h.2.1.symm, fun hc => by simp [← h.2.2] at hc⟩
  | stored a =>
    simp only [load_auth] at h
    by_cases hta : a.truthy
    · rw [if_pos hta] at h
      unfold getValidWithAuth at h
      split at h
      · exact absurd h (by simp)
      · split at h
        · exact absurd h (by simp)
        · split at h
          · exact absurd h (by simp)
          · split at h
            · exact absurd h (by simp)
            · split at h
              · exact absurd h (by simp)
              · unfold gvtFinish at h
                split at h
                · rw [hrn] at h
                  simp only [Except.ok.injEq, Prod.mk.injEq] at h
                  exact ⟨h.2.1.symm, fun _ => h.1.symm⟩
                · simp only [Except.ok.injEq, Prod.mk.injEq] at h
                  refine ⟨h.2.1.symm, fun hc => ?_⟩
                  rw [← h.2.2] at hc
                  cases hc
    · rw [if_neg hta] at h
      simp only [Except.ok.injEq, Prod.mk.injEq] at h
      exact ⟨h.2.1.symm, fun hc => by simp [← h.2.2] at hc⟩

/-- Concrete instance of `C3_refresh_failure_none_and_store_unchanged`:
`authRt` with a network error during the refresh POST. -/
theorem C3_refresh_failure_witness :
    (FileState.stored authRt) = FileState.stored authRt ∧
    (true = true → (none : PyVal) = none) :=
  C3_refresh_failure_none_and_store_unchanged (.stored authRt) 1000000
    .netError "iso" none (.stored authRt) true (Or.inl rfl) rfl

/-! ## Claim C4: a fresh token passes through untouched

The claim holds only for expiries `fromtimestamp` can convert: a numeric
`exp` beyond `datetime.max` (for instance a milliseconds-scale expiry
such as `3 * 10^11`, far "more than 5 minutes in the future") makes the
conversion raise, the `except` branch sets `should_refresh = True`, and
with a refresh token present the gate performs a refresh call — and a
save on success — contrary to the claim. -/

/-- Helper: when the effective claims decode to a dict, the refresh
decision is exactly `refreshDecision` on the `exp` entry. -/
theorem shouldRefreshFor_obj (s : String) (now : Rat)
    (kvs : List (String × Json)) (hs : s ≠ "")
    (hc : claimsEff s = .obj kvs) :
    shouldRefreshFor (some (.str s)) now =
      .ok (refreshDecision (denull (jlookup kvs "exp")) now) := by
  rw [shouldRefreshFor_str s now hs, hc]

/-- Helper: `expOf` on claims that decode to a dict. -/
theorem expOf_obj (s : String) (kvs : List (String × Json))
    (hc : claimsEff s = .obj kvs) :
    expOf s =
      match denull (jlookup kvs "exp") with
      | some (.num q) => some q
      | some (.bool b) => some (if b then 1 else 0)
      | some .nan => some (tsMax + 1)
      | some (.inf neg) => some (if neg then tsMin - 1 else tsMax + 1)
      | _ => none := by
  unfold expOf
  rw [hc]

/-- Helper: a decodable, in-range numeric `exp` strictly more than five
minutes ahead of `now` makes the gate decide no refresh is needed. -/
theorem shouldRefreshFor_false_of_future (s : String) (q now : Rat)
    (hs : s ≠ "") (hexp : expOf s = some q)
    (hlo : tsMin ≤ q) (hhi : q ≤ tsMax) (hfut : now + 300 < q) :
    shouldRefreshFor (some (.str s)) now = .ok false := by
  cases hc : claimsEff s with
  | obj kvs =>
    rw [expOf_obj s kvs hc] at hexp
    rw [shouldRefreshFor_obj s now kvs hs hc]
    cases hd : denull (jlookup kvs "exp") with
    | none => rw [hd] at hexp; simp at hexp
    | some v =>
      rw [hd] at hexp
      cases v with
      | num q' =>
        simp only [Option.some.injEq] at hexp
        subst hexp
        simp only [refreshDecision,
          if_neg (by push_neg; exact ⟨hlo, hhi⟩ :
            ¬(q' < tsMin ∨ tsMax < q'))]
        simp [not_le.mpr hfut]
      | bool b =>
        simp only [Option.some.injEq] at hexp
        subst hexp
        simp only [refreshDecision]
        simp [not_le.mpr hfut]
      | nan =>
        simp only [Option.some.injEq] at hexp
        subst hexp
        exact absurd hhi (not_le.mpr (lt_add_one tsMax))
      | inf neg =>
        cases neg with
        | false =>
          simp only [Option.some.injEq, Bool.false_eq_true, if_false]
            at hexp
          subst hexp
          exact absurd hhi (not_le.mpr (lt_add_one tsMax))
        | true =>
          simp only [Option.some.injEq, if_true] at hexp
          subst hexp
          exact absurd hlo (not_le.mpr (sub_lt_self tsMin one_pos))
      | null => simp at hexp
      | str _ => simp at hexp
      | arr _ => simp at hexp
      | obj _ => simp at hexp
  | null => unfold expOf at hexp; rw [hc] at hexp; simp at hexp
  | bool _ => unfold expOf at hexp; rw [hc] at hexp; simp at hexp
  | num _ => unfold expOf at hexp; rw [hc] at hexp; simp at hexp
  | nan => unfold expOf at hexp; rw [hc] at hexp; simp at hexp
  | inf _ => unfold expOf at hexp; rw [hc] at hexp; simp at hexp
  | str _ => unfold expOf at hexp; rw [hc] at hexp; simp at hexp
  | arr _ => unfold expOf at hexp; rw [hc] at hexp; simp at hexp

/-- A token whose claims are `\x7b"exp": 300000000000\x7d`: a numeric
expiry strictly more than five minutes in the future, but beyond the
`fromtimestamp`-convertible range (year 9999), as a milliseconds-scale
`exp` would be. -/
def tokExpHuge : String := mkJwt "\x7b\"exp\":300000000000\x7d"

/-- Stored record for the C4 counterexample: the out-of-range-expiry
token together with a refresh token. -/
def authHugeRt : Json :=
  .obj [("tokens", .obj [("access_token", .str tokExpHuge),
                         ("refresh_token", .str "rt")])]

/-- C4 as stated is false on the code: `tokExpHuge` carries the numeric
`exp = 3 * 10^11`, strictly more than five minutes after `now = 10^9`,
yet the gate invokes the refresher (the final `true` records the
refresh call) instead of returning the stored pair untouched — here the
refresh POST fails, so the gate returns `None`. -/
theorem C4_out_of_range_future_exp_cex :
    expOf tokExpHuge = some 300000000000 ∧
    ((1000000000 : Rat) + 300 < 300000000000) ∧
    get_valid_tokens (.stored authHugeRt) 1000000000 .netError "iso" =
      .ok (none, .stored authHugeRt, true) :=
  ⟨rfl, by norm_num, rfl⟩

/-- C4 amended: a stored credential whose access token decodes to claims
with a numeric `exp` that is within the `fromtimestamp`-convertible
range and strictly more than five minutes in the future is returned
as-is — same `access_token`, same `account_id` — with no refresh call
and no write to the store.  (Outside that range the conversion raises
and the gate refreshes instead, see `C4_out_of_range_future_exp_cex`.) -/
theorem C4_fresh_token_passthrough (kvs tkvs : List (String × Json))
    (s : String) (q now : Rat) (resp : RefreshResponse) (iso : String)
    (hk : kvs ≠ [])
    (ht : jlookup kvs "tokens" = some (.obj tkvs))
    (ha : jlookup tkvs "access_token" = some (.str s))
    (hs : s ≠ "")
    (hexp : expOf s = some q)
    (hlo : tsMin ≤ q) (hhi : q ≤ tsMax) (hfut : now + 300 < q) :
    get_valid_tokens (.stored (.obj kvs)) now resp iso =
      .ok (some (.obj
        [("access_token", Json.str s),
         ("account_id", pyToJson (denull (jlookup tkvs "account_id")))]),
        .stored (.obj kvs), false) := by
  have htr : (Json.obj kvs).truthy = true := by
    simp [Json.truthy, hk]
  have hde : denull (some (Json.obj tkvs)) = some (Json.obj tkvs) := rfl
  have hda : denull (jlookup tkvs "access_token") = some (Json.str s) := by
    rw [ha]; rfl
  have hsr : shouldRefreshFor (some (Json.str s)) now = .ok false :=
    shouldRefreshFor_false_of_future s q now hs hexp hlo hhi hfut
  unfold get_valid_tokens load_auth
  simp only [htr, if_true]
  unfold getValidWithAuth
  simp only [pyGetD, ht, hde, pyGet, hda, hsr, gvtFinish]
  simp [pyToJson]

/-- Concrete instance of `C4_fresh_token_passthrough`: `tokExpFut`
(expiry 10^9 + 900) at `now = 10^9`, stored with an `account_id`. -/
theorem C4_fresh_token_passthrough_witness :
    get_valid_tokens
        (.stored (.obj [("tokens", .obj
          [("access_token", Json.str tokExpFut),
           ("account_id", Json.str "acc")])]))
        1000000000 .netError "iso" =
      .ok (some (.obj
        [("access_token", Json.str tokExpFut),
         ("account_id", pyToJson (denull (jlookup
            [("access_token", Json.str tokExpFut),
             ("account_id", Json.str "acc")] "account_id")))]),
        .stored (.obj [("tokens", .obj
          [("access_token", Json.str tokExpFut),
           ("account_id", Json.str "acc")])]), false) :=
  C4_fresh_token_passthrough
    [("tokens", .obj [("access_token", Json.str tokExpFut),
                      ("account_id", Json.str "acc")])]
    [("access_token", Json.str tokExpFut), ("account_id", Json.str "acc")]
    tokExpFut 1000000900 1000000000 .netError "iso"
    (by simp) rfl rfl (by decide) (by decide) (by decide) (by decide)
    (by decide)
